import Mathlib

/-!
Shallow embedding of the graphvizier library (src/src/lib.rs), a DOT-file
generator: the entity model (`entities` module) and the recursive renderer
(`generator` module).  Strings are Lean `String`s; the `Vec<Entity>` fields
are `List Entity`; the two `assert!` statements of the renderer are modelled
by `Option` (`none` = the assertion fired).
-/

namespace Graphvizier

/-- Text to display on or next to the object (`Label(pub String)`). -/
structure Label where
  s : String
deriving DecidableEq

/-- An HTML color name (`Color(pub String)`). -/
structure Color where
  s : String
deriving DecidableEq

/-- Default values for styling vertices (`NodeDefaults`). -/
structure NodeDefaults where
  color : Option Color
  fontcolor : Option Color
deriving DecidableEq

/-- The key used to reference a vertex in a `.dot` file (`Id(String)`). -/
structure Id where
  s : String
deriving DecidableEq

/-- `Id::new`: construct an ID from any string (the permissive revision in
src/ performs no validation at all). -/
def Id.new (s : String) : Id := ⟨s⟩

/-! The `Id::maybe_escaped` regexes.  The Rust source holds the pattern
string literals

  `ALPHA_ID   = "[a-zA-Z_\\\\200-\\\\377][a-zA-Z_\\\\200-\\\\3770-9]*"`
  `NUMERAL_ID = "[-]?(.[0-9]+|[0-9]+(.[0-9]*)?)"`

After Rust string-literal unescaping the regex engine therefore receives
`[a-zA-Z_\\200-\\377][a-zA-Z_\\200-\\3770-9]*`: the intended octal escapes
are double-escaped, so each character class contains an escaped literal
backslash followed by plain digit characters, and `200-\\377` parses as the
items `2`, `0`, the range `0`..`\` (codepoints 0x30 to 0x5C) and `3`, `7`,
`7`.  In NUMERAL_ID the `.` is an unescaped regex dot (any character other
than a newline), not a literal decimal point.  `RegexSet::is_match` is an
unanchored search: it succeeds when a match of either pattern STARTS at any
position of the string. -/

/-- Character class `[a-zA-Z_\\200-\\377]` as the regex engine parses it:
ranges a-z and A-Z, then the items `_`, `\` (the escaped backslash), `2`,
`0`, the range 0x30..0x5C, and `3`, `7`, `7`. -/
def alpha_class_first (c : Char) : Bool :=
  ('a' ≤ c && c ≤ 'z') || ('A' ≤ c && c ≤ 'Z') || c == '_' || c == '\\' ||
  c == '2' || c == '0' || (0x30 ≤ c.toNat && c.toNat ≤ 0x5C) || c == '3' || c == '7'

/-- Character class `[a-zA-Z_\\200-\\3770-9]`: the same items followed by the
range 0-9 (which the range 0x30..0x5C already contains). -/
def alpha_class_rest (c : Char) : Bool :=
  ('a' ≤ c && c ≤ 'z') || ('A' ≤ c && c ≤ 'Z') || c == '_' || c == '\\' ||
  c == '2' || c == '0' || (0x30 ≤ c.toNat && c.toNat ≤ 0x5C) || c == '3' || c == '7' ||
  ('0' ≤ c && c ≤ '9')

/-- Whether a match of ALPHA_ID (`alpha_class_first` then `alpha_class_rest`
starred) starts at this position of the character list.  The Kleene star may
match the empty prefix, so such a match exists exactly when the head
character is in the first class. -/
def alpha_id_match_at : List Char → Bool
  | [] => false
  | c :: _ => alpha_class_first c

/-- Whether a match of the NUMERAL_ID body `(.[0-9]+|[0-9]+(.[0-9]*)?)`
starts at this position: the first alternative needs any non-newline
character followed by a digit (the remaining `[0-9]+`/`[0-9]*` content is
optional for match existence), the second needs a leading digit. -/
def numeral_body_at : List Char → Bool
  | [] => false
  | [c] => c.isDigit
  | a :: b :: _ => (a != '\n' && b.isDigit) || a.isDigit

/-- Whether a match of NUMERAL_ID `[-]?(...)` starts at this position: the
optional `[-]?` may either consume a leading dash or match emptily. -/
def numeral_id_match_at : List Char → Bool
  | '-' :: rest => numeral_body_at rest || numeral_body_at ('-' :: rest)
  | l => numeral_body_at l

/-- Unanchored regex search (`is_match` of the regex crate): does a match of
the pattern start at some position (including the end-of-string position)? -/
def is_match_from (p : List Char → Bool) : List Char → Bool
  | [] => p []
  | c :: rest => p (c :: rest) || is_match_from p rest

/-- `UNQUOTED_IDS.is_match(&s)`: unanchored search for either pattern. -/
def unquoted_ids_is_match (s : String) : Bool :=
  is_match_from alpha_id_match_at s.data || is_match_from numeral_id_match_at s.data

/-- Concatenation of a list of strings (used to express the renderer's
string-push loops functionally). -/
def concat_strs : List String → String
  | [] => ""
  | s :: ss => s ++ concat_strs ss

/-- One character of Rust's `format!("{:?}", s)` escaping for `str`:
tab/CR/LF and the backslash and double quote get two-character escapes,
other control characters a `\u` escape in lowercase hex.  (Rust consults the
Unicode printability tables for codepoints above 0x7F; the claims only
exercise ASCII, and this model keeps all such characters unescaped.) -/
def escape_debug_char (c : Char) : String :=
  if c == '\t' then "\\t"
  else if c == '\r' then "\\r"
  else if c == '\n' then "\\n"
  else if c == '\\' then "\\\\"
  else if c == '"' then "\\\""
  else if c.toNat < 0x20 || c.toNat == 0x7F then
    "\\u\x7b" ++ String.mk (Nat.toDigits 16 c.toNat) ++ "\x7d"
  else String.singleton c

/-- Rust's `format!("{:?}", s)`: the string wrapped in double quotes with
internal double quotes (and other special characters) backslash-escaped. -/
def rust_debug_str (s : String) : String :=
  "\"" ++ concat_strs (s.data.map escape_debug_char) ++ "\""

/-- `Id::maybe_escaped`: return the string unchanged when the unanchored
regex-set search succeeds, otherwise the `format!("{:?}", s)` quoting. -/
def Id.maybe_escaped (i : Id) : String :=
  if unquoted_ids_is_match i.s then i.s else rust_debug_str i.s

/-- `Vertex`: identifier plus optional label/color/fontcolor. -/
structure Vertex where
  id : Id
  label : Option Label
  color : Option Color
  fontcolor : Option Color

/-- `Edge`: source and target identifiers plus optional attributes. -/
structure Edge where
  source : Id
  target : Id
  label : Option Label
  color : Option Color
  fontcolor : Option Color

/-- `Edge::default()`: empty-string endpoints and no attributes. -/
def Edge.default : Edge :=
  { source := Id.new "", target := Id.new "", label := none, color := none,
    fontcolor := none }

/-- `Entity`: the closed union over subgraph/vertex/edge.  The `Subgraph`
struct's fields (id, label, color, fontcolor, node_defaults, entities) are
inlined into its constructor because `entities : Vec<Entity>` makes the type
recursive. -/
inductive Entity where
  | Subgraph (id : Id) (label : Option Label) (color : Option Color)
      (fontcolor : Option Color) (node_defaults : Option NodeDefaults)
      (entities : List Entity)
  | Vertex (v : Vertex)
  | Edge (e : Edge)

/-- `DotOutput(pub String)`. -/
structure DotOutput where
  s : String
deriving DecidableEq

/-- `GraphBuilder`: the ordered sequence of accepted top-level entities. -/
structure GraphBuilder where
  entities : List Entity

/-- `GraphBuilder::new()`. -/
def GraphBuilder.new : GraphBuilder := ⟨[]⟩

/-- `GraphBuilder::accept_entity`: push onto the sequence. -/
def GraphBuilder.accept_entity (gb : GraphBuilder) (e : Entity) : GraphBuilder :=
  ⟨gb.entities ++ [e]⟩

/-- The `indent` spaces pushed by `newline_indent`. -/
def indentSpaces (n : Nat) : String := String.mk (List.replicate n ' ')

/-- `GraphBuilder::newline_indent`: push a newline, then `indent` spaces. -/
def newline_indent (output : String) (indent : Nat) : String :=
  output ++ "\n" ++ indentSpaces indent

/-- `GraphBuilder::bump_indent`. -/
def bump_indent (indent : Nat) : Nat := indent + 2

/-- `GraphBuilder::unbump_indent` with its `assert!(*indent >= 2)` modelled
as the `none` result. -/
def unbump_indent (indent : Nat) : Option Nat :=
  if 2 ≤ indent then some (indent - 2) else none

/-- The `modifiers` vector built identically in the Vertex and Edge arms of
`print_entity` (and, with `label := none`, from a `NodeDefaults`): pushes,
in order, `label="…"`, `color="…"`, `fontcolor="…"` for the present
attributes. -/
def mk_modifiers (label : Option Label) (color : Option Color)
    (fontcolor : Option Color) : List String :=
  (match label with
   | some l => ["label=\"" ++ l.s ++ "\""]
   | none => []) ++
  (match color with
   | some c => ["color=\"" ++ c.s ++ "\""]
   | none => []) ++
  (match fontcolor with
   | some f => ["fontcolor=\"" ++ f.s ++ "\""]
   | none => [])

/-- The `if !modifiers.is_empty()` block shared by the Vertex and Edge arms:
push `[`, then each modifier followed by `, `, then `]`. -/
def push_modifiers (output : String) (modifiers : List String) : String :=
  if modifiers.isEmpty then output
  else (modifiers.foldl (fun acc m => acc ++ (m ++ ", ")) (output ++ "[")) ++ "]"

/-- The optional `label = "...";` line of the Subgraph arm (followed, when
present, by `newline_indent`). -/
def subgraph_label_seg (label : Option Label) (indent1 : Nat) : String :=
  match label with
  | some l => "label = \"" ++ l.s ++ "\";" ++ "\n" ++ indentSpaces indent1
  | none => ""

/-- The optional `color = "...";` line of the Subgraph arm (preceded by
`newline_indent`). -/
def subgraph_color_seg (color : Option Color) (indent1 : Nat) : String :=
  match color with
  | some c => "\n" ++ indentSpaces indent1 ++ "color = \"" ++ c.s ++ "\";"
  | none => ""

/-- The optional `fontcolor = "...";` line of the Subgraph arm. -/
def subgraph_fontcolor_seg (fontcolor : Option Color) (indent1 : Nat) : String :=
  match fontcolor with
  | some f => "\n" ++ indentSpaces indent1 ++ "fontcolor = \"" ++ f.s ++ "\";"
  | none => ""

/-- The optional `node [...];` line of the Subgraph arm: emitted only when a
`NodeDefaults` is present and yields a non-empty modifier list, with the
same trailing-comma loop as the other brackets. -/
def subgraph_node_defaults_seg (node_defaults : Option NodeDefaults)
    (indent1 : Nat) : String :=
  match node_defaults with
  | some nd =>
    let modifiers := mk_modifiers none nd.color nd.fontcolor
    if modifiers.isEmpty then ""
    else "\n" ++ indentSpaces indent1 ++
      (modifiers.foldl (fun acc m => acc ++ (m ++ ", ")) "node [") ++ "];"
  | none => ""

/-- Lines 312-350 of the Subgraph arm of `print_entity`: everything the arm
pushes onto `output` before the child-entity loop, with `indent1` the
already-bumped indent. -/
def subgraph_head (id : Id) (label : Option Label) (color : Option Color)
    (fontcolor : Option Color) (node_defaults : Option NodeDefaults)
    (indent1 : Nat) : String :=
  let output := "subgraph " ++ id.maybe_escaped ++ " \x7b"
  let output := newline_indent output indent1
  let output := output ++ subgraph_label_seg label indent1
  let output := output ++ "cluster = true;"
  let output := newline_indent output indent1
  let output := output ++ "rank = same;"
  let output := output ++ "\n"
  let output := output ++ subgraph_color_seg color indent1
  let output := output ++ subgraph_fontcolor_seg fontcolor indent1
  let output := output ++ subgraph_node_defaults_seg node_defaults indent1
  output ++ "\n"

mutual

/-- `GraphBuilder::print_entity`.  The Subgraph arm bumps the indent,
renders each child at the bumped indent (each preceded by
`newline_indent`), unbumps, and closes the brace on its own indented line;
`none` means an `unbump_indent` assertion fired. -/
def print_entity : Entity → Nat → Option String
  | .Vertex v, _indent =>
    let output := v.id.maybe_escaped
    let modifiers := mk_modifiers v.label v.color v.fontcolor
    some (push_modifiers output modifiers ++ ";")
  | .Edge e, _indent =>
    let output := e.source.maybe_escaped ++ " -> " ++ e.target.maybe_escaped
    let modifiers := mk_modifiers e.label e.color e.fontcolor
    some (push_modifiers output modifiers ++ ";")
  | .Subgraph id label color fontcolor node_defaults entities, indent =>
    let indent1 := bump_indent indent
    let output := subgraph_head id label color fontcolor node_defaults indent1
    match print_children entities indent1 with
    | none => none
    | some body =>
      match unbump_indent indent1 with
      | none => none
      | some indent2 => some (newline_indent (output ++ body) indent2 ++ "\x7d")

/-- The child-entity loop of the Subgraph arm: for each child,
`newline_indent` then the child's rendering at the same (bumped) indent. -/
def print_children : List Entity → Nat → Option String
  | [], _ => some ""
  | e :: es, indent =>
    match print_entity e indent with
    | none => none
    | some s =>
      match print_children es indent with
      | none => none
      | some rest => some ("\n" ++ indentSpaces indent ++ s ++ rest)

end

/-- The top-level entity loop of `GraphBuilder::build`: for each entity, a
blank line (`newline`), then `newline_indent`, then the entity's
rendering. -/
def print_top : List Entity → Nat → Option String
  | [], _ => some ""
  | e :: es, indent =>
    match print_entity e indent with
    | none => none
    | some s =>
      match print_top es indent with
      | none => none
      | some rest => some ("\n" ++ ("\n" ++ indentSpaces indent) ++ s ++ rest)

/-- `GraphBuilder::build`: emit the `digraph` header and `compound = true;`,
render the entities, unbump, check `assert_eq!(indent, 0)` (the `none`
result models either assertion firing), and close the document. -/
def GraphBuilder.build (gb : GraphBuilder) (graph_name : Id) : Option DotOutput :=
  let indent0 : Nat := 0
  let output := "digraph " ++ graph_name.maybe_escaped ++ " \x7b"
  let indent1 := bump_indent indent0
  let output := newline_indent output indent1
  let output := output ++ "compound = true;"
  match print_top gb.entities indent1 with
  | none => none
  | some body =>
    match unbump_indent indent1 with
    | none => none
    | some indent2 =>
      if indent2 = 0 then
        some ⟨(newline_indent (output ++ body) indent2 ++ "\x7d") ++ "\n"⟩
      else none

/-- Rendering with the assertion result stripped (defined, the assertions
never fire). -/
def render_entity (e : Entity) (ind : Nat) : String := (print_entity e ind).getD ""

/-- Modelled from the spec: the unquoted-identifier grammar exactly as the
spec states it — a full (anchored) match of `[A-Za-z_][A-Za-z_0-9]*`. -/
def spec_alpha_full : List Char → Bool
  | [] => false
  | c :: rest =>
    (c.isAlpha || c == '_') && rest.all (fun d => d.isAlpha || d == '_' || d.isDigit)

/-- Modelled from the spec: a full match of the numeral body
`(\.[0-9]+ | [0-9]+(\.[0-9]*)?)` with a literal decimal point. -/
def spec_numeral_body (l : List Char) : Bool :=
  (match l with
   | '.' :: ds => !ds.isEmpty && ds.all Char.isDigit
   | _ => false) ||
  (let p := l.span Char.isDigit
   !p.1.isEmpty &&
     (match p.2 with
      | [] => true
      | '.' :: ds => ds.all Char.isDigit
      | _ => false))

/-- Modelled from the spec: a full match of a signed or unsigned numeral. -/
def spec_numeral_full : List Char → Bool
  | '-' :: rest => spec_numeral_body rest
  | l => spec_numeral_body l

/-- Modelled from the spec: `s` matches the unquoted-identifier grammar
(`[A-Za-z_][A-Za-z_0-9]*` or a signed/unsigned numeral) in full. -/
def spec_unquoted_grammar (s : String) : Bool :=
  spec_alpha_full s.data || spec_numeral_full s.data

/-- Modelled from the spec: the character set `[A-Za-z0-9_-]` of the
strict identifier policy. -/
def strict_id_char (c : Char) : Bool :=
  ('A' ≤ c && c ≤ 'Z') || ('a' ≤ c && c ≤ 'z') || ('0' ≤ c && c ≤ '9') ||
  c == '_' || c == '-'

/-- Modelled from the spec: the strict-policy identifier constructor of the
superseding revision of the library, which is not among the sources here
(only the permissive revision is).  Construction fails, with the offending
string and the grammar in the message, when the string does not match
`^[A-Za-z0-9_-]*$`; on success the string is stored verbatim. -/
def Id.new_strict (s : String) : Except String Id :=
  if s.data.all strict_id_char then Except.ok (Id.new s)
  else Except.error ("invalid id \"" ++ s ++ "\": expected to match ^[A-Za-z0-9_-]*$")

/-! Helper lemmas about the renderer. -/

/-- The `push_str(format!("{}, ", m))` loop appends each modifier followed
by `, `. -/
theorem foldl_append_comma (mods : List String) (x : String) :
    mods.foldl (fun acc m => acc ++ (m ++ ", ")) x
      = x ++ concat_strs (mods.map (fun m => m ++ ", ")) := by
  induction mods generalizing x with
  | nil => simp [concat_strs]
  | cons m ms ih => simp [List.foldl, concat_strs, ih, String.append_assoc]

/-- Closed form of the attribute-bracket block: nothing when no modifiers,
otherwise `[` then every modifier followed by `, ` then `]`. -/
theorem push_modifiers_eq (output : String) (mods : List String) :
    push_modifiers output mods =
      output ++ (if mods.isEmpty then ""
                 else "[" ++ concat_strs (mods.map (fun m => m ++ ", ")) ++ "]") := by
  cases mods with
  | nil => simp [push_modifiers]
  | cons m ms => simp [push_modifiers, foldl_append_comma, concat_strs, String.append_assoc]

/-- Closed form of the Vertex arm of `print_entity`. -/
theorem print_entity_vertex_eq (v : Vertex) (ind : Nat) :
    print_entity (.Vertex v) ind =
      some (v.id.maybe_escaped ++
        (if (mk_modifiers v.label v.color v.fontcolor).isEmpty then ""
         else "[" ++ concat_strs ((mk_modifiers v.label v.color v.fontcolor).map
                (fun m => m ++ ", ")) ++ "]") ++ ";") := by
  simp [print_entity, push_modifiers_eq, String.append_assoc]

/-- Closed form of the Edge arm of `print_entity`. -/
theorem print_entity_edge_eq (e : Edge) (ind : Nat) :
    print_entity (.Edge e) ind =
      some (e.source.maybe_escaped ++ " -> " ++ e.target.maybe_escaped ++
        (if (mk_modifiers e.label e.color e.fontcolor).isEmpty then ""
         else "[" ++ concat_strs ((mk_modifiers e.label e.color e.fontcolor).map
                (fun m => m ++ ", ")) ++ "]") ++ ";") := by
  simp [print_entity, push_modifiers_eq, String.append_assoc]

/-- Closed form of the Subgraph arm of `print_entity`: the children are
rendered at the indent bumped by exactly 2, and the closing brace sits back
at the enclosing indent with no trailing semicolon. -/
theorem print_entity_subgraph_eq (id : Id) (label : Option Label)
    (color : Option Color) (fontcolor : Option Color)
    (node_defaults : Option NodeDefaults) (es : List Entity) (ind : Nat) :
    print_entity (.Subgraph id label color fontcolor node_defaults es) ind =
      (print_children es (ind + 2)).map (fun body =>
        subgraph_head id label color fontcolor node_defaults (ind + 2) ++ body ++
          ("\n" ++ indentSpaces ind ++ "\x7d")) := by
  cases hc : print_children es (ind + 2) with
  | none => simp [print_entity, bump_indent, hc]
  | some body =>
    simp [print_entity, bump_indent, hc, unbump_indent, newline_indent,
      String.append_assoc]

/-- One step of the child-entity loop: every child line begins with a
newline and the (bumped) indent. -/
theorem print_children_cons_eq (e : Entity) (es : List Entity) (ind : Nat) :
    print_children (e :: es) ind =
      (print_entity e ind).bind (fun s =>
        (print_children es ind).map (fun rest =>
          "\n" ++ indentSpaces ind ++ s ++ rest)) := by
  cases hp : print_entity e ind with
  | none => simp [print_children, hp]
  | some s =>
    cases hc : print_children es ind with
    | none => simp [print_children, hp, hc]
    | some rest => simp [print_children, hp, hc, String.append_assoc]

mutual

/-- `print_entity` never hits the unbump assertion. -/
theorem print_entity_isSome : ∀ (e : Entity) (ind : Nat),
    (print_entity e ind).isSome = true
  | .Vertex v, ind => by simp [print_entity]
  | .Edge e, ind => by simp [print_entity]
  | .Subgraph id label color fontcolor node_defaults es, ind => by
    have h := print_children_isSome es (ind + 2)
    rw [print_entity_subgraph_eq]
    cases hc : print_children es (ind + 2) with
    | none => rw [hc] at h; simp at h
    | some body => simp

/-- `print_children` never hits the unbump assertion. -/
theorem print_children_isSome : ∀ (es : List Entity) (ind : Nat),
    (print_children es ind).isSome = true
  | [], ind => by simp [print_children]
  | e :: es, ind => by
    have h1 := print_entity_isSome e ind
    have h2 := print_children_isSome es ind
    cases hp : print_entity e ind with
    | none => rw [hp] at h1; simp at h1
    | some s =>
      cases hc : print_children es ind with
      | none => rw [hc] at h2; simp at h2
      | some rest => simp [print_children, hp, hc]

end

/-- `print_entity` always yields the total rendering. -/
theorem print_entity_eq_render (e : Entity) (ind : Nat) :
    print_entity e ind = some (render_entity e ind) := by
  have h := print_entity_isSome e ind
  cases hp : print_entity e ind with
  | none => rw [hp] at h; simp at h
  | some s => simp [render_entity, hp]

/-- Closed form of the top-level entity loop: the entities are emitted in
sequence order, each preceded by a blank line and the 2-space indent. -/
theorem print_top_eq (es : List Entity) (ind : Nat) :
    print_top es ind =
      some (concat_strs (es.map (fun e =>
        "\n" ++ ("\n" ++ indentSpaces ind) ++ render_entity e ind))) := by
  induction es with
  | nil => simp [print_top, concat_strs]
  | cons e es ih =>
    simp [print_top, print_entity_eq_render, ih, concat_strs, String.append_assoc]

/-- Closed form of `GraphBuilder::build`: header, `compound = true;`, the
accepted entities in order, and the closing brace at indent 0. -/
theorem build_eq (es : List Entity) (name : Id) :
    GraphBuilder.build ⟨es⟩ name =
      some ⟨"digraph " ++ name.maybe_escaped ++ " \x7b" ++ "\n" ++ indentSpaces 2 ++
        "compound = true;" ++
        concat_strs (es.map (fun e =>
          "\n" ++ ("\n" ++ indentSpaces 2) ++ render_entity e 2)) ++
        "\n" ++ indentSpaces 0 ++ "\x7d" ++ "\n"⟩ := by
  simp [GraphBuilder.build, bump_indent, unbump_indent, newline_indent, print_top_eq,
    String.append_assoc]

/-! The claims. -/

/-- C1: the claim states that `Id::maybe_escaped` returns `s` unchanged if and
only if `s` matches the unquoted-identifier grammar (`[A-Za-z_][A-Za-z_0-9]*`
or a signed/unsigned numeral).  The code does not do this: `RegexSet::is_match`
is an unanchored search, so the string `"bad id!"` — which does not match the
grammar (it contains a space and `!`) and so, by the claim and by the
function's own documentation, should be returned wrapped in escaped double
quotes — is returned unchanged, because a match of ALPHA_ID merely starts
inside it. -/
theorem c1_maybe_escaped_unanchored_on_bad_id :
    Id.maybe_escaped (Id.new "bad id!") = "bad id!" ∧
    spec_unquoted_grammar "bad id!" = false := by
  constructor
  · decide
  · decide

/-- C2: a builder with no accepted entities, built with graph name `g`,
renders to exactly `digraph g {\n  compound = true;\n}\n`. -/
theorem c2_empty_builder_output :
    GraphBuilder.new.build (Id.new "g") =
      some ⟨"digraph g \x7b\n  compound = true;\n\x7d\n"⟩ := by
  decide

/-- C3: a vertex renders as its (maybe-escaped) identifier followed, when any
of label/color/fontcolor is present, by a bracket in which every
`attr="value"` pair — the last included — is followed by `, ` before the
closing bracket, then `;`; with no attributes it is just the identifier and
`;`.  In particular the vertex `node_0` labelled `node_0` renders as
`node_0[label="node_0", ];`. -/
theorem c3_vertex_rendering :
    (∀ (v : Vertex) (ind : Nat),
        print_entity (.Vertex v) ind =
          some (v.id.maybe_escaped ++
            (if (mk_modifiers v.label v.color v.fontcolor).isEmpty then ""
             else "[" ++ concat_strs ((mk_modifiers v.label v.color v.fontcolor).map
                    (fun m => m ++ ", ")) ++ "]") ++ ";")) ∧
    print_entity (.Vertex ⟨Id.new "node_0", some ⟨"node_0"⟩, none, none⟩) 2 =
      some "node_0[label=\"node_0\", ];" :=
  ⟨print_entity_vertex_eq, by decide⟩

/-- C4: an edge renders as `source -> target` followed by the same
trailing-comma bracket rule as vertices; `build` emits the top-level
entities in acceptance (insertion) order; and the two-vertex-plus-edge
fixture renders its edge line as `node_0 -> node_1[label="asdf", ];` after
both vertex lines, exactly as in the repository's own test. -/
theorem c4_edge_rendering_and_order :
    (∀ (e : Edge) (ind : Nat),
        print_entity (.Edge e) ind =
          some (e.source.maybe_escaped ++ " -> " ++ e.target.maybe_escaped ++
            (if (mk_modifiers e.label e.color e.fontcolor).isEmpty then ""
             else "[" ++ concat_strs ((mk_modifiers e.label e.color e.fontcolor).map
                    (fun m => m ++ ", ")) ++ "]") ++ ";")) ∧
    (∀ (es : List Entity) (name : Id),
        GraphBuilder.build ⟨es⟩ name =
          some ⟨"digraph " ++ name.maybe_escaped ++ " \x7b" ++ "\n" ++
            indentSpaces 2 ++ "compound = true;" ++
            concat_strs (es.map (fun e =>
              "\n" ++ ("\n" ++ indentSpaces 2) ++ render_entity e 2)) ++
            "\n" ++ indentSpaces 0 ++ "\x7d" ++ "\n"⟩) ∧
    (((GraphBuilder.new.accept_entity
          (.Vertex ⟨Id.new "node_0", some ⟨"node_0"⟩, none, none⟩)).accept_entity
          (.Vertex ⟨Id.new "node_1", some ⟨"node_1"⟩, none, none⟩)).accept_entity
          (.Edge ⟨Id.new "node_0", Id.new "node_1", some ⟨"asdf"⟩, none, none⟩)).build
        (Id.new "test_graph") =
      some ⟨"digraph test_graph \x7b\n  compound = true;\n\n  node_0[label=\"node_0\", ];\n\n  node_1[label=\"node_1\", ];\n\n  node_0 -> node_1[label=\"asdf\", ];\n\x7d\n"⟩ :=
  ⟨print_entity_edge_eq, build_eq, by decide⟩

/-- C5: every subgraph, the one with an empty entity sequence included,
renders as an opened and closed brace block containing the lines
`cluster = true;` and `rank = same;`, and its closing brace carries no
trailing semicolon (the rendering ends in the bare brace on its own
indented line). -/
theorem c5_subgraph_block :
    (∀ (id : Id) (label : Option Label) (color : Option Color)
        (fontcolor : Option Color) (node_defaults : Option NodeDefaults)
        (es : List Entity) (ind : Nat),
        ∃ mid tail,
          print_entity (.Subgraph id label color fontcolor node_defaults es) ind =
            some ("subgraph " ++ id.maybe_escaped ++ " \x7b" ++ mid ++
              ("cluster = true;" ++ "\n" ++ indentSpaces (ind + 2) ++ "rank = same;") ++
              tail ++ ("\n" ++ indentSpaces ind ++ "\x7d"))) ∧
    print_entity (.Subgraph (Id.new "s") none none none none []) 0 =
      some "subgraph s \x7b\n  cluster = true;\n  rank = same;\n\n\n\x7d" := by
  constructor
  · intro id label color fontcolor node_defaults es ind
    have h := print_children_isSome es (ind + 2)
    cases hc : print_children es (ind + 2) with
    | none => rw [hc] at h; simp at h
    | some body =>
      refine ⟨"\n" ++ indentSpaces (ind + 2) ++ subgraph_label_seg label (ind + 2),
        "\n" ++ subgraph_color_seg color (ind + 2) ++
          subgraph_fontcolor_seg fontcolor (ind + 2) ++
          subgraph_node_defaults_seg node_defaults (ind + 2) ++ "\n" ++ body, ?_⟩
      rw [print_entity_subgraph_eq, hc]
      simp only [subgraph_head, newline_indent, Option.map_some', Option.some.injEq,
        String.append_assoc]
  · decide

/-- C6: rendering is deterministic — two builds on identical entity trees
and graph names produce identical output. -/
theorem c6_build_deterministic (gb1 gb2 : GraphBuilder) (n1 n2 : Id)
    (hentities : gb1.entities = gb2.entities) (hname : n1 = n2) :
    gb1.build n1 = gb2.build n2 := by
  cases gb1 with
  | mk es1 =>
    cases gb2 with
    | mk es2 =>
      cases hname
      have h : es1 = es2 := hentities
      cases h
      rfl

/-- Witness for C6 at a concrete builder and name. -/
theorem c6_build_deterministic_witness :
    GraphBuilder.build ⟨[]⟩ (Id.new "g") = GraphBuilder.build ⟨[]⟩ (Id.new "g") :=
  c6_build_deterministic ⟨[]⟩ ⟨[]⟩ (Id.new "g") (Id.new "g") rfl rfl

/-- C7: each subgraph nesting level renders its children at the indent
increased by exactly 2 and closes its brace back at the enclosing indent;
every emitted child line starts with that bumped indent; and on a
3-level-deep nested fixture the full document carries 2, 4, 6, 8 spaces of
indentation level by level, with the vertex after the closed subgraph back
at the top-level 2-space indent. -/
theorem c7_indent_discipline :
    (∀ (id : Id) (label : Option Label) (color : Option Color)
        (fontcolor : Option Color) (node_defaults : Option NodeDefaults)
        (es : List Entity) (ind : Nat),
        print_entity (.Subgraph id label color fontcolor node_defaults es) ind =
          (print_children es (ind + 2)).map (fun body =>
            subgraph_head id label color fontcolor node_defaults (ind + 2) ++ body ++
              ("\n" ++ indentSpaces ind ++ "\x7d"))) ∧
    (∀ (e : Entity) (es : List Entity) (ind : Nat),
        print_children (e :: es) ind =
          (print_entity e ind).bind (fun s =>
            (print_children es ind).map (fun rest =>
              "\n" ++ indentSpaces ind ++ s ++ rest))) ∧
    ((GraphBuilder.new.accept_entity
        (.Subgraph (Id.new "a") none none none none
          [.Subgraph (Id.new "b") none none none none
            [.Subgraph (Id.new "c") none none none none
              [.Vertex ⟨Id.new "v", none, none, none⟩]]])).accept_entity
        (.Vertex ⟨Id.new "w", none, none, none⟩)).build (Id.new "g") =
      some ⟨"digraph g \x7b\n  compound = true;\n\n  subgraph a \x7b\n    cluster = true;\n    rank = same;\n\n\n    subgraph b \x7b\n      cluster = true;\n      rank = same;\n\n\n      subgraph c \x7b\n        cluster = true;\n        rank = same;\n\n\n        v;\n      \x7d\n    \x7d\n  \x7d\n\n  w;\n\x7d\n"⟩ :=
  ⟨print_entity_subgraph_eq, print_children_cons_eq, by set_option maxRecDepth 4096 in decide⟩

/-- C8: the renderer's internal assertions — the `assert!(*indent >= 2)`
underflow check in `unbump_indent` and the `assert_eq!(indent, 0)` check at
the end of `build` — never fire: `build` succeeds for every entity sequence
and graph name. -/
theorem c8_assertions_never_fire (gb : GraphBuilder) (name : Id) :
    (gb.build name).isSome = true := by
  cases gb with
  | mk es =>
    rw [build_eq]
    rfl

/-- C9: under the strict identifier policy, construction from `"bad id!"`
fails at construction time (before any rendering), while `"node-1"` and
`"Node_2"` are accepted and stored verbatim. -/
theorem c9_strict_policy_construction :
    Id.new_strict "bad id!" =
      Except.error "invalid id \"bad id!\": expected to match ^[A-Za-z0-9_-]*$" ∧
    Id.new_strict "node-1" = Except.ok (Id.new "node-1") ∧
    Id.new_strict "Node_2" = Except.ok (Id.new "Node_2") :=
  ⟨rfl, rfl, rfl⟩

/-- C10: rendering a default-constructed edge (both endpoints the empty
string, no attributes) does not fail: `build` succeeds and emits the line
`"" -> "";`, each empty endpoint rendered as an escaped-quoted empty
string. -/
theorem c10_default_edge_renders :
    (GraphBuilder.new.accept_entity (.Edge Edge.default)).build (Id.new "g") =
      some ⟨"digraph g \x7b\n  compound = true;\n\n  \"\" -> \"\";\n\x7d\n"⟩ := by
  decide

end Graphvizier
